import Mathlib

/-!
Verification of the conversion-invocation lifecycle of the chatpack web
front-end (`src/hooks/useWasm.ts`): error-message classification
(`humanizeError` over `ERROR_MESSAGES`), the module-loader state machine
(`useWasm`), the conversion invoker (`convert`), and the progress
heuristics (`estimateProcessingTime`, `needsProgressIndicator`).

Strings are embedded as `List Char`; JavaScript number arithmetic in the
progress heuristic is embedded as exact rational arithmetic.
-/

namespace Chatpack

/-- True when the second list starts with the first list
(character-wise equality). -/
def leadsWith : List Char → List Char → Bool
  | [], _ => true
  | _ :: _, [] => false
  | a :: as, b :: bs => a == b && leadsWith as bs

/-- Embeds JavaScript substring containment `hay.includes(needle)`:
true iff `needle` occurs contiguously in `hay` (the empty needle always
occurs). -/
def containsSub : List Char → List Char → Bool
  | [], needle => needle.isEmpty
  | c :: t, needle => leadsWith needle (c :: t) || containsSub t needle

/-- Embeds JavaScript `toLowerCase()` on the ASCII range used by the
classifier keys. -/
def lowerStr (s : List Char) : List Char := s.map Char.toLower

/-- ECMAScript whitespace (WhiteSpace ∪ LineTerminator), as removed by
`String.prototype.trim`. -/
def wsChar (c : Char) : Bool :=
  [0x9, 0xA, 0xB, 0xC, 0xD, 0x20, 0xA0, 0x1680, 0x2000, 0x2001, 0x2002,
   0x2003, 0x2004, 0x2005, 0x2006, 0x2007, 0x2008, 0x2009, 0x200A, 0x2028,
   0x2029, 0x202F, 0x205F, 0x3000, 0xFEFF].contains c.toNat

/-- Embeds JavaScript `String.prototype.trim`: drop whitespace from both
ends. -/
def jsTrim (s : List Char) : List Char :=
  ((s.dropWhile wsChar).reverse.dropWhile wsChar).reverse

/-- The fallback message, entry `default` of `ERROR_MESSAGES`
(useWasm.ts line 38). -/
def defaultMsg : List Char := "An error occurred during conversion".data

/-- The record `ERROR_MESSAGES` from useWasm.ts lines 30-39, in declared order.
`Object.entries` iterates string keys in insertion order, so the record
is embedded as an ordered association list; the `default` entry is part
of the record and is iterated like the others. -/
def ERROR_MESSAGES : List (List Char × List Char) :=
  [("Unknown source".data,
    "Unknown source. Supported: Telegram, WhatsApp, Instagram, Discord".data),
   ("Unknown format".data,
    "Unknown format. Supported: CSV, JSON, JSONL".data),
   ("Failed to parse".data,
    "Failed to parse file. Make sure it\x27s an export from a supported messenger".data),
   ("Invalid JSON".data,
    "Invalid JSON. Check file integrity".data),
   ("Empty input".data,
    "File is empty or contains no messages".data),
   ("WASM".data,
    "Failed to load converter. Try refreshing the page".data),
   ("network".data,
    "Network error. Check your internet connection".data),
   ("default".data, defaultMsg)]

/-- The `for (const [key, message] of Object.entries(ERROR_MESSAGES))`
loop of `humanizeError`: return the message of the first key that is a
case-insensitive substring of the error. -/
def lookupMessage : List (List Char × List Char) → List Char → Option (List Char)
  | [], _ => none
  | (k, m) :: rest, e =>
      if containsSub (lowerStr e) (lowerStr k) then some m
      else lookupMessage rest e

/-- The function `humanizeError` from useWasm.ts lines 41-53: first the keyed lookup;
otherwise return the raw string when it is shorter than 100 characters
and free of the crash markers `panicked` and `wasm`; otherwise the
fallback message. -/
def humanizeError (e : List Char) : List Char :=
  match lookupMessage ERROR_MESSAGES e with
  | some m => m
  | none =>
      if e.length < 100 && !containsSub e "panicked".data
          && !containsSub e "wasm".data then e
      else defaultMsg

/-- The external computation module (interface `WasmModule` of useWasm.ts):
a conversion function that may signal an error (embedded as `Except` with
the raw error string) and a version string. -/
structure WasmModule where
  convert : List Char → List Char → List Char → Bool → Bool →
    Except (List Char) (List Char)
  version : List Char

/-- The interface `ConvertOptions` of useWasm.ts: two optional boolean flags. -/
structure ConvertOptions where
  timestamps : Option Bool
  replays : Option Bool

/-- The failure taxonomy of the hook-level `convert`: the guard throw
`Converter not loaded. Refresh the page and try again.`, the emptiness
throw `File is empty or contains no data`, and the re-thrown classified
module failure. -/
inductive ConvError where
  | notLoaded
  | emptyInput
  | conversionFailed (classified : List Char)
deriving DecidableEq

/-- The user-visible message string carried by each `ConvError`, as thrown
by useWasm.ts lines 97-113. -/
def convErrorMessage : ConvError → List Char
  | .notLoaded => "Converter not loaded. Refresh the page and try again.".data
  | .emptyInput => "File is empty or contains no data".data
  | .conversionFailed m => m

/-- The hook-level `convert` of useWasm.ts lines 89-114: throw `notLoaded`
when the module handle is null; throw `emptyInput` when the input is empty
or trims to empty; otherwise delegate to the module with the two flags
defaulted to `false`, returning its output verbatim on success and its
classified error on failure. -/
def hookConvert (mod : Option WasmModule) (input source format : List Char)
    (options : ConvertOptions) : Except ConvError (List Char) :=
  match mod with
  | none => .error .notLoaded
  | some m =>
      if input.isEmpty || (jsTrim input).isEmpty then .error .emptyInput
      else
        match m.convert input source format (options.timestamps.getD false)
            (options.replays.getD false) with
        | .ok out => .ok out
        | .error e => .error (.conversionFailed (humanizeError e))

/-- The loader state held by `useWasm`: the five `useState` cells
`module`, `isLoading`, `error`, `version`, `retryCount`. -/
structure LoaderState where
  module : Option WasmModule
  isLoading : Bool
  error : Option (List Char)
  version : Option (List Char)
  retryCount : Nat

/-- The state at mount: `useState<WasmModule | null>(null)`,
`useState(true)`, `useState<string | null>(null)`,
`useState<string | null>(null)`, `useState(0)`. -/
def initState : LoaderState := ⟨none, true, none, none, 0⟩

/-- Readiness, `module !== null && !isLoading` (useWasm.ts line 118). -/
def isReady (s : LoaderState) : Bool := s.module.isSome && !s.isLoading

/-- The loader transitions as they occur in the program. A load attempt
begins with `setIsLoading(true); setError(null)` (folded into `init` and
`retry`, since the effect re-runs `loadWasm` exactly at mount and on each
`retryCount` change); an in-flight attempt (`isLoading = true`) resolves
either to success (`setModule`, `setVersion`, `setIsLoading(false)`) or to
failure (`setError(humanizeError ...)`, `setIsLoading(false)`), neither of
which touches the other cells. `retry` increments `retryCount` and
restarts the load; the App renders the retry button only when the loader
error is non-null (the wasmError guard around the retry button in the
App component), so the transition
is guarded by a present error. -/
inductive Reachable : LoaderState → Prop
  | init : Reachable initState
  | loadSuccess {s : LoaderState} (m : WasmModule) (v : List Char) :
      Reachable s → s.isLoading = true →
      Reachable ⟨some m, false, s.error, some v, s.retryCount⟩
  | loadFailure {s : LoaderState} (e : List Char) :
      Reachable s → s.isLoading = true →
      Reachable ⟨s.module, false, some (humanizeError e), s.version, s.retryCount⟩
  | retry {s : LoaderState} :
      Reachable s → s.error ≠ none →
      Reachable ⟨s.module, true, none, s.version, s.retryCount + 1⟩

/-- The hook-level `convert` paired with the loader state it runs in. The
source function performs no state update (it calls no `set*`), so the
embedding returns the state unchanged alongside the result. -/
def convertSt (s : LoaderState) (input source format : List Char)
    (options : ConvertOptions) : Except ConvError (List Char) × LoaderState :=
  (hookConvert s.module input source format options, s)

/-- Decimal rendering of an integer, as a JavaScript template literal
renders `Math.ceil(...)`. -/
def renderInt (i : Int) : List Char :=
  if i < 0 then '-' :: Nat.toDigits 10 i.natAbs else Nat.toDigits 10 i.natAbs

/-- The function `estimateProcessingTime` from useWasm.ts lines 128-139, with
JavaScript number arithmetic embedded as exact rational arithmetic. -/
def estimateProcessingTime (fileSize : ℚ) : List Char :=
  let estimatedMessages := fileSize / 100
  let estimatedSeconds := estimatedMessages / 100000
  if estimatedSeconds < 1 then "less than a second".data
  else if estimatedSeconds < 60 then
    "~".data ++ renderInt (Rat.ceil estimatedSeconds) ++ " sec".data
  else
    "~".data ++ renderInt (Rat.ceil (estimatedSeconds / 60)) ++ " min".data

/-- The predicate `needsProgressIndicator` from useWasm.ts lines 142-144. -/
def needsProgressIndicator (fileSize : ℚ) : Bool := fileSize > 1024 * 1024

/-- A concrete module used to instantiate theorems about the invoker. -/
def demoModule : WasmModule :=
  ⟨fun input _ _ _ _ => .ok ('#' :: input), "0.1.0".data⟩

/-- Helper: the loop of `humanizeError` returns the message of the first
matching entry, in `List.find?` form. -/
theorem lookupMessage_eq_find (l : List (List Char × List Char)) (e : List Char) :
    lookupMessage l e =
      (l.find? fun p => containsSub (lowerStr e) (lowerStr p.1)).map Prod.snd := by
  induction l with
  | nil => rfl
  | cons p rest ih =>
      obtain ⟨k, m⟩ := p
      by_cases h : containsSub (lowerStr e) (lowerStr k) = true
      · simp [lookupMessage, List.find?_cons_of_pos, h]
      · rw [lookupMessage, if_neg (by simp [h]), ih,
          List.find?_cons_of_neg _ (by simp [h])]

/-- Helper: a message produced by the loop is one of the declared
messages. -/
theorem lookupMessage_mem {l : List (List Char × List Char)} {e m : List Char}
    (h : lookupMessage l e = some m) : m ∈ l.map Prod.snd := by
  induction l with
  | nil => exact absurd h (by simp [lookupMessage])
  | cons p rest ih =>
      obtain ⟨k, m'⟩ := p
      rw [lookupMessage] at h
      split at h
      · simp [Option.some.injEq] at h
        simp [h]
      · simpa using Or.inr (ih h)

/-- Helper: `humanizeError` either returns its argument unchanged or one
of the eight declared messages. -/
theorem humanize_cases (e : List Char) :
    humanizeError e = e ∨ humanizeError e ∈ ERROR_MESSAGES.map Prod.snd := by
  cases h : lookupMessage ERROR_MESSAGES e with
  | some m =>
      have hm : humanizeError e = m := by rw [humanizeError, h]
      rw [hm]
      exact Or.inr (lookupMessage_mem h)
  | none =>
      have hu : humanizeError e =
          if (decide (e.length < 100) && !containsSub e "panicked".data
              && !containsSub e "wasm".data) = true then e
          else defaultMsg := by
        rw [humanizeError, h]
      by_cases hc : (decide (e.length < 100) && !containsSub e "panicked".data
          && !containsSub e "wasm".data) = true
      · rw [hu, if_pos hc]
        exact Or.inl rfl
      · rw [hu, if_neg hc]
        exact Or.inr (by simp [ERROR_MESSAGES])

/-- Helper: each of the eight declared messages is a fixed point of
`humanizeError`. -/
theorem messages_fixed : ∀ m ∈ ERROR_MESSAGES.map Prod.snd, humanizeError m = m := by
  decide

/-- Helper: invariant of the reachable loader states: a loaded module
implies the loader is idle with no error, and an in-flight load implies
no error. -/
theorem reachable_inv {s : LoaderState} (h : Reachable s) :
    (s.module.isSome = true → s.isLoading = false ∧ s.error = none) ∧
    (s.isLoading = true → s.error = none) := by
  induction h with
  | init => exact ⟨fun hm => by simp [initState] at hm, fun _ => rfl⟩
  | loadSuccess m v hr hl ih =>
      exact ⟨fun _ => ⟨rfl, ih.2 hl⟩, fun hc => by simp at hc⟩
  | loadFailure e hr hl ih =>
      refine ⟨fun hm => ?_, fun hc => by simp at hc⟩
      have := (ih.1 hm).1
      rw [hl] at this
      exact absurd this (by simp)
  | retry hr he ih =>
      refine ⟨fun hm => ?_, fun _ => rfl⟩
      exact absurd (ih.1 hm).2 he

/-- Helper: `Rat.ceil` agrees with the mathematical ceiling. -/
theorem ratCeil_eq_ceil (q : ℚ) : Rat.ceil q = ⌈q⌉ := by
  unfold Rat.ceil
  split
  · next h =>
      have h2 := (Rat.den_eq_one_iff q).mp h
      calc q.num = ⌈(q.num : ℚ)⌉ := (Int.ceil_intCast _).symm
      _ = ⌈q⌉ := by rw [h2]
  · next h =>
      have hfd : q.num / (q.den : ℤ) = ⌊q⌋ := (Rat.floor_def).symm
      have hne : ((⌊q⌋ : ℤ) : ℚ) ≠ q := by
        intro he
        apply h
        rw [← he]
        exact Rat.den_intCast _
      rw [hfd, eq_comm, Int.ceil_eq_iff]
      constructor
      · push_cast
        have := (Int.floor_le q).lt_of_ne hne
        linarith
      · push_cast
        have := (Int.lt_floor_add_one q).le
        linarith

/-- C1: in every reachable loader state that is not `Ready`, the module
handle is null, so `convert` fails with `notLoaded` and leaves the state
unchanged; with no module present, no module function exists to be
called. -/
theorem convert_notReady_notLoaded (s : LoaderState)
    (input source format : List Char) (opts : ConvertOptions)
    (hr : Reachable s) (hnr : isReady s = false) :
    s.module = none ∧
      convertSt s input source format opts = (.error .notLoaded, s) := by
  have hmod : s.module = none := by
    cases hm : s.module with
    | none => rfl
    | some m =>
        have hl := ((reachable_inv hr).1 (by simp [hm])).1
        rw [isReady, hm, hl] at hnr
        simp at hnr
  exact ⟨hmod, by simp [convertSt, hookConvert, hmod]⟩

/-- C1 witness: the initial state is reachable and not ready, and
`convert` there fails with `notLoaded`. -/
theorem convert_notReady_notLoaded_witness :
    initState.module = none ∧
      convertSt initState "hello".data "telegram".data "csv".data ⟨none, none⟩ =
        (.error .notLoaded, initState) :=
  convert_notReady_notLoaded initState "hello".data "telegram".data "csv".data
    ⟨none, none⟩ Reachable.init rfl

/-- C2: with a loaded module (so that the preceding null-module guard
passes), any input that trims to the empty string makes `convert` fail
with `emptyInput`; the conclusion holds uniformly in the module `m`, so
the module conversion function is never called. -/
theorem convert_empty_input (m : WasmModule)
    (input source format : List Char) (opts : ConvertOptions)
    (h : jsTrim input = []) :
    hookConvert (some m) input source format opts = .error .emptyInput := by
  rw [hookConvert, if_pos (by simp [h])]

/-- C2 witness: whitespace-only input is rejected as `emptyInput`. -/
theorem convert_empty_input_witness :
    jsTrim "  ".data = [] ∧
      hookConvert (some demoModule) "  ".data "telegram".data "csv".data
        ⟨none, none⟩ = .error .emptyInput :=
  ⟨by decide, convert_empty_input demoModule "  ".data "telegram".data "csv".data
    ⟨none, none⟩ (by decide)⟩

/-- C3: when some classifier key occurs case-insensitively in the raw
error string, `humanizeError` returns exactly the message of the first
such key in declared order (`List.find?` returns the first entry whose
key matches), regardless of the surrounding text. -/
theorem humanizeError_first_key (e k m : List Char)
    (h : ERROR_MESSAGES.find? (fun p => containsSub (lowerStr e) (lowerStr p.1)) =
      some (k, m)) :
    humanizeError e = m := by
  rw [humanizeError, lookupMessage_eq_find, h]
  rfl

/-- C3 witness: a raw string containing both the `Unknown format` and the
`Invalid JSON` keys (with different letter case and surrounding text) is
classified by the first matching key in declared order. -/
theorem humanizeError_first_key_witness :
    ERROR_MESSAGES.find?
        (fun p => containsSub (lowerStr "xx unknown FORMAT, Invalid JSON yy".data)
          (lowerStr p.1)) =
      some ("Unknown format".data,
        "Unknown format. Supported: CSV, JSON, JSONL".data) ∧
      humanizeError "xx unknown FORMAT, Invalid JSON yy".data =
        "Unknown format. Supported: CSV, JSON, JSONL".data :=
  ⟨by decide,
    humanizeError_first_key "xx unknown FORMAT, Invalid JSON yy".data
      "Unknown format".data "Unknown format. Supported: CSV, JSON, JSONL".data
      (by decide)⟩

/-- C4: a raw error string matching no classifier key, shorter than 100
characters, and containing neither crash marker (`panicked`, `wasm`) is
returned unchanged. -/
theorem humanizeError_short_unchanged (e : List Char)
    (hk : ERROR_MESSAGES.find? (fun p => containsSub (lowerStr e) (lowerStr p.1)) =
      none)
    (hlen : e.length < 100)
    (hp : containsSub e "panicked".data = false)
    (hw : containsSub e "wasm".data = false) :
    humanizeError e = e := by
  rw [humanizeError, lookupMessage_eq_find, hk]
  simp [hlen, hp, hw]

/-- C4 witness: a short unclassified message passes through unchanged. -/
theorem humanizeError_short_unchanged_witness :
    ERROR_MESSAGES.find?
        (fun p => containsSub (lowerStr "simple failure".data) (lowerStr p.1)) =
      none ∧
      "simple failure".data.length < 100 ∧
      containsSub "simple failure".data "panicked".data = false ∧
      containsSub "simple failure".data "wasm".data = false ∧
      humanizeError "simple failure".data = "simple failure".data :=
  ⟨by decide, by decide, by decide, by decide,
    humanizeError_short_unchanged _ (by decide) (by decide) (by decide) (by decide)⟩

/-- C5 counterexample: a raw error string longer than 100 characters that
contains the `Unknown source` key is classified by that key, not by the
generic fallback message, so length alone does not force the fallback. -/
theorem humanizeError_fallback_claim_false :
    100 <
        ("Unknown source: qqqqqqqqqqqqqqqqqqqqqqqqqqqqqqqqqqqqqqqqqqqqqqqqqqqqqqqqqqqqqqqqqqqqqqqqqqqqqqqqqqqqqqqqq".data
          : List Char).length ∧
      humanizeError
          "Unknown source: qqqqqqqqqqqqqqqqqqqqqqqqqqqqqqqqqqqqqqqqqqqqqqqqqqqqqqqqqqqqqqqqqqqqqqqqqqqqqqqqqqqqqqqqq".data ≠
        defaultMsg := by
  decide

/-- C5 amended: for raw error strings matching no classifier key, a
length of at least 100 characters or a crash marker (`panicked`, `wasm`)
forces the generic fallback message. -/
theorem humanizeError_fallback_amended (e : List Char)
    (hk : ERROR_MESSAGES.find? (fun p => containsSub (lowerStr e) (lowerStr p.1)) =
      none)
    (h : 100 ≤ e.length ∨ containsSub e "panicked".data = true ∨
      containsSub e "wasm".data = true) :
    humanizeError e = defaultMsg := by
  rw [humanizeError, lookupMessage_eq_find, hk]
  rcases h with h | h | h
  · simp [Nat.not_lt.mpr h]
  · simp [h]
  · simp [h]

/-- C5 amended witness: a short crash-marker message with no key maps to
the fallback. -/
theorem humanizeError_fallback_amended_witness :
    ERROR_MESSAGES.find?
        (fun p => containsSub (lowerStr "thread main panicked at lib".data)
          (lowerStr p.1)) =
      none ∧
      containsSub "thread main panicked at lib".data "panicked".data = true ∧
      humanizeError "thread main panicked at lib".data = defaultMsg :=
  ⟨by decide, by decide,
    humanizeError_fallback_amended _ (by decide) (Or.inr (Or.inl (by decide)))⟩

/-- C6: in every reachable loader state, the module handle is non-null
iff the loader is `Ready` (`module !== null && !isLoading`). -/
theorem reachable_module_iff_ready (s : LoaderState) (hr : Reachable s) :
    s.module ≠ none ↔ isReady s = true := by
  constructor
  · intro hm
    have hsome : s.module.isSome = true := Option.isSome_iff_ne_none.mpr hm
    have hl := ((reachable_inv hr).1 hsome).1
    simp [isReady, hsome, hl]
  · intro hrd
    rw [isReady, Bool.and_eq_true] at hrd
    exact Option.isSome_iff_ne_none.mp hrd.1

/-- C6 witness: the invariant instantiated at the reachable initial
state, where both sides are false. -/
theorem reachable_module_iff_ready_witness :
    initState.module ≠ none ↔ isReady initState = true :=
  reachable_module_iff_ready initState Reachable.init

/-- C7: in a `Ready` state (module present, not loading), on a request
whose input does not trim to empty and on which the module conversion
succeeds, `convert` returns the module output verbatim and the loader
state is returned unchanged in every component. -/
theorem convert_success_verbatim_frame (s : LoaderState) (m : WasmModule)
    (input source format : List Char) (opts : ConvertOptions) (out : List Char)
    (hm : s.module = some m) (hl : s.isLoading = false)
    (hi : jsTrim input ≠ [])
    (hc : m.convert input source format (opts.timestamps.getD false)
      (opts.replays.getD false) = .ok out) :
    convertSt s input source format opts = (.ok out, s) := by
  have hne : input.isEmpty = false := by
    cases input with
    | nil => exact absurd rfl hi
    | cons a t => rfl
  have hts : (jsTrim input).isEmpty = false := by
    cases h' : jsTrim input with
    | nil => exact absurd h' hi
    | cons a t => rfl
  simp [convertSt, hookConvert, hm, hne, hts, hc]

/-- C7 witness: a concrete ready state and request on which the demo
module succeeds; the output is returned verbatim and the state is
unchanged. -/
theorem convert_success_verbatim_frame_witness :
    (⟨some demoModule, false, none, some "0.1.0".data, 0⟩ : LoaderState).module =
        some demoModule ∧
      convertSt ⟨some demoModule, false, none, some "0.1.0".data, 0⟩ "hello".data
          "telegram".data "csv".data ⟨none, none⟩ =
        (.ok ('#' :: "hello".data),
          ⟨some demoModule, false, none, some "0.1.0".data, 0⟩) :=
  ⟨rfl, convert_success_verbatim_frame _ demoModule "hello".data "telegram".data
    "csv".data ⟨none, none⟩ ('#' :: "hello".data) rfl rfl (by decide) rfl⟩

/-- C8: for every non-negative byte size, with estimated seconds
`s = (n / 100) / 100000` computed in exact arithmetic:
below 1 the result is `less than a second`; in `[1, 60)` it is the
ceiling of `s` rendered as seconds; at 60 or above it is the ceiling of
`s / 60` rendered as minutes. -/
theorem estimateProcessingTime_spec (n : ℚ) (hn : 0 ≤ n) :
    (n / 100 / 100000 < 1 →
        estimateProcessingTime n = "less than a second".data) ∧
      (1 ≤ n / 100 / 100000 → n / 100 / 100000 < 60 →
        estimateProcessingTime n =
          "~".data ++ renderInt ⌈n / 100 / 100000⌉ ++ " sec".data) ∧
      (60 ≤ n / 100 / 100000 →
        estimateProcessingTime n =
          "~".data ++ renderInt ⌈n / 100 / 100000 / 60⌉ ++ " min".data) := by
  refine ⟨fun h1 => ?_, fun h1 h2 => ?_, fun h1 => ?_⟩
  · rw [estimateProcessingTime]
    simp only []
    rw [if_pos h1]
  · rw [estimateProcessingTime]
    simp only []
    rw [if_neg (by linarith), if_pos h2, ratCeil_eq_ceil]
  · rw [estimateProcessingTime]
    simp only []
    rw [if_neg (by linarith), if_neg (by linarith), ratCeil_eq_ceil]

/-- C8 witness: the specification instantiated at byte size 0. -/
theorem estimateProcessingTime_spec_witness :
    (0 ≤ (0 : ℚ)) ∧
      (((0 : ℚ) / 100 / 100000 < 1 →
          estimateProcessingTime 0 = "less than a second".data) ∧
        (1 ≤ (0 : ℚ) / 100 / 100000 → (0 : ℚ) / 100 / 100000 < 60 →
          estimateProcessingTime 0 =
            "~".data ++ renderInt ⌈(0 : ℚ) / 100 / 100000⌉ ++ " sec".data) ∧
        (60 ≤ (0 : ℚ) / 100 / 100000 →
          estimateProcessingTime 0 =
            "~".data ++ renderInt ⌈(0 : ℚ) / 100 / 100000 / 60⌉ ++ " min".data)) :=
  ⟨le_refl 0, estimateProcessingTime_spec 0 (le_refl 0)⟩

/-- C9: `needsProgressIndicator n` is true exactly when `n` exceeds
1048576 bytes (1 MiB), and in particular is false at exactly 1048576. -/
theorem needsProgressIndicator_spec :
    (∀ n : ℚ, needsProgressIndicator n = true ↔ 1048576 < n) ∧
      needsProgressIndicator 1048576 = false := by
  have key : ∀ n : ℚ, needsProgressIndicator n = true ↔ 1048576 < n := by
    intro n
    rw [needsProgressIndicator]
    norm_num
  refine ⟨key, ?_⟩
  by_contra h
  have := (key 1048576).mp (by simpa using h)
  exact absurd this (lt_irrefl _)

/-- C10: error classification is idempotent: classifying an already
classified message returns it unchanged. -/
theorem humanizeError_idempotent (s : List Char) :
    humanizeError (humanizeError s) = humanizeError s := by
  rcases humanize_cases s with h | h
  · conv_lhs => rw [h]
  · exact messages_fixed _ h

end Chatpack
